import Mathlib

/-!
# Verification of the go-iamport payment-gateway client

A shallow embedding of the repository (package `iamport`, file `iamport.go`,
plus the older snapshot of the same file kept in the repository) and proofs
about its token-caching, error-handling and request-building logic.

The HTTP transport is modelled as an oracle: each operation takes, as extra
arguments, the response the transport would deliver for each request the
operation can issue.  The embedding records, alongside the Go return values,
whether each network request was actually issued, so that claims of the form
"no request is made" / "exactly one acquisition attempt" are statable.
-/

namespace Iamport

/-! ## Go `time.Time`, at wall-clock precision

`time.Time` is modelled by its wall-clock instant: seconds and nanoseconds.
The zero `time.Time` (January 1, year 1, 00:00:00 UTC) corresponds to Unix
second -62135596800; `IsZero` reports exactly that instant, and `Before` is
the lexicographic strict order on (sec, nsec).  Monotonic-clock readings,
which `time.Now` attaches in Go, do not change `Before`/`IsZero` at this
granularity and are not modelled. -/
structure GoTime where
  sec : Int
  nsec : Int
  deriving DecidableEq, Repr

/-- The Go zero `time.Time` expressed in Unix seconds. -/
def GoTime.zeroTime : GoTime := ⟨-62135596800, 0⟩

/-- `time.Time.IsZero`: the receiver is the zero instant. -/
def GoTime.isZero (t : GoTime) : Bool := t.sec == (-62135596800 : Int) && t.nsec == 0

/-- `time.Time.Before`: strict wall-clock order. -/
def GoTime.before (t u : GoTime) : Bool :=
  t.sec < u.sec || (t.sec == u.sec && t.nsec < u.nsec)

/-- `time.Unix(sec, 0)`. -/
def timeUnix (sec : Int) : GoTime := ⟨sec, 0⟩

/-! ## Client state (`Client`, `accessToken`) -/

/-- `accessToken` struct of `iamport.go`: the cached bearer token. -/
structure AccessToken where
  token : String
  expired : GoTime
  deriving DecidableEq, Repr

/-- `Client` struct of `iamport.go` (the `HTTP *http.Client` transport is
modelled as an oracle passed to each operation, not stored). -/
structure Client where
  apiKey : String
  apiSecret : String
  accessToken : AccessToken
  deriving DecidableEq, Repr

/-- `NewClient`: stores the credentials; the `AccessToken` field is left at
its Go zero value (empty token string, zero expiry time). -/
def newClient (apiKey apiSecret : String) : Client :=
  ⟨apiKey, apiSecret, ⟨"", GoTime.zeroTime⟩⟩

/-- A Go `error` value (compared by its message, as the source only ever
builds them with `errors.New` / `fmt.Errorf` or passes them through). -/
inductive GoErr where
  | msg (s : String)
  deriving DecidableEq, Repr

/-! ## The token endpoint oracle and `GetToken` -/

/-- Result of decoding the token endpoint's 200 body into
`{code, message, response:{access_token, expired_at, now}}`. -/
inductive TokenBody where
  | decodeError (e : GoErr)
  | envelope (code : Int) (message : String) (accessToken : String)
      (expiredAt : Int) (now : Int)
  deriving DecidableEq, Repr

/-- What `cli.HTTP.PostForm` on the authentication endpoint would return. -/
inductive TokenResponse where
  | transportError (e : GoErr)
  | http (status : Nat) (body : TokenBody)
  deriving DecidableEq, Repr

/-- Outcome of `GetToken`: the (possibly updated) client, the returned Go
error, and whether a POST to the authentication endpoint was issued. -/
structure TokenOutcome where
  cli : Client
  err : Option GoErr
  posted : Bool
  deriving DecidableEq, Repr

/-- `Client.GetToken` of `iamport.go` (lines 41-90): credential checks first
(no network), then POST, then the 401 / non-200 / decode / non-zero-code
ladder; only the all-success path writes the cached token. -/
def getToken (cli : Client) (resp : TokenResponse) : TokenOutcome :=
  if cli.apiKey = "" then
    ⟨cli, some (.msg "iamport: APIKey is missing"), false⟩
  else if cli.apiSecret = "" then
    ⟨cli, some (.msg "iamport: APISecret is missing"), false⟩
  else
    match resp with
    | .transportError e => ⟨cli, some e, true⟩
    | .http status body =>
      if status = 401 then
        ⟨cli, some (.msg "iamport: unauthorized"), true⟩
      else if status ≠ 200 then
        ⟨cli, some (.msg "iamport: unknown error"), true⟩
      else
        match body with
        | .decodeError e => ⟨cli, some e, true⟩
        | .envelope code message tok expAt _now =>
          if code ≠ 0 then
            ⟨cli, some (.msg ("iamport: " ++ message)), true⟩
          else
            ⟨{ cli with accessToken := ⟨tok, timeUnix expAt⟩ }, none, true⟩

/-! ## The authorization helper -/

/-- The condition of the `switch` in `authorization` (iamport.go lines
128-131), literally as written: token empty, or expiry zero, or
`!Expired.Before(now)`. -/
def tokenNeedsRefresh (cli : Client) (now : GoTime) : Bool :=
  cli.accessToken.token == "" || cli.accessToken.expired.isZero
    || !(cli.accessToken.expired.before now)

/-- `Modelled from the spec:` the validity invariant the spec states for the
cached token ("usable only if it is non-empty, its expiry is set (non-zero),
and the expiry is strictly after the current time"); kept separate from
`tokenNeedsRefresh`, which is the condition the code actually tests. -/
def specTokenUsable (cli : Client) (now : GoTime) : Bool :=
  cli.accessToken.token != "" && !(cli.accessToken.expired.isZero)
    && now.before cli.accessToken.expired

/-- Outcome of `authorization`: the (possibly updated) client, the
`(string, error)` pair, whether `GetToken` was called, and whether a POST to
the authentication endpoint was issued. -/
structure AuthOutcome where
  cli : Client
  result : Except GoErr String
  getTokenCalled : Bool
  posted : Bool
  deriving Repr

/-- `Client.authorization` of `iamport.go` (lines 125-140): if the switch
condition fires, call `GetToken` (propagating its error with an empty
string); in every non-error path return the cached token field as it stands
after the switch. -/
def authorization (cli : Client) (now : GoTime) (tokResp : TokenResponse) :
    AuthOutcome :=
  if tokenNeedsRefresh cli now then
    let g := getToken cli tokResp
    match g.err with
    | some e => ⟨g.cli, .error e, true, g.posted⟩
    | none => ⟨g.cli, .ok g.cli.accessToken.token, true, g.posted⟩
  else
    ⟨cli, .ok cli.accessToken.token, false, false⟩

/-! ## The `Payment` record -/

/-- `Payment` struct of `iamport.go` (lines 93-123). -/
structure Payment where
  impUID : String
  merchantUID : String
  payMethod : String
  pgProvider : String
  pgTID : String
  applyNum : String
  cardName : String
  cardQuota : Int
  vBankName : String
  vBankNum : String
  vBankHolder : String
  vBankDate : Int
  name : String
  amount : Int
  cancelAmount : Int
  buyerName : String
  buyerEmail : String
  buyerTel : String
  buyerAddr : String
  buyerPostCode : String
  customData : String
  userAgent : String
  status : String
  paidAt : Int
  failedAt : Int
  canceledAt : Int
  failReason : String
  cancelReason : String
  receiptURL : String
  deriving DecidableEq, Repr

/-- The Go zero value of `Payment` (what each operation's local envelope
struct holds before a successful decode). -/
def Payment.zero : Payment :=
  ⟨"", "", "", "", "", "", "", 0, "", "", "", 0, "", 0, 0, "", "", "", "",
    "", "", "", "", 0, 0, 0, "", "", ""⟩

/-! ## The operation-endpoint oracle and JSON field decoding

A 200 body decoded into the per-operation envelope struct is modelled by the
envelope's numeric `code`, the string-valued members present at the top level
of the JSON object (as an association list, so that the struct tag on the
`Message` field selects which member fills it — `encoding/json` matches a
field to the member named by its tag and leaves the field at its zero value
`""` when no such member exists), and the decoded `response` payload. -/
inductive OpBody where
  | decodeError (e : GoErr) (partialResponse : Payment)
  | envelope (code : Int) (stringFields : List (String × String))
      (response : Payment)
  deriving DecidableEq, Repr

/-- What `cli.HTTP.Do` on the operation's request would return. -/
inductive OpResponse where
  | transportError (e : GoErr)
  | http (status : Nat) (body : OpBody)
  deriving DecidableEq, Repr

/-- `encoding/json` filling of a string struct field whose tag is
`messageTag`, from the string-valued members of the body object. -/
def decodeMessageField (messageTag : String) (stringFields : List (String × String)) :
    String :=
  match stringFields.lookup messageTag with
  | some v => v
  | none => ""

/-- Outcome of an authenticated payment operation: the (possibly updated)
client, the returned `(Payment, error)` pair, whether a POST to the
authentication endpoint was issued, and whether the operation's own request
was issued. -/
structure OpOutcome where
  cli : Client
  payment : Payment
  err : Option GoErr
  authPosted : Bool
  opRequested : Bool
  url : String
  deriving Repr

/-- `Client.GetPaymentImpUID` of `iamport.go` (lines 145-190): build the
request (no network), resolve the token via `authorization`, issue the GET,
then the 401 / 404 / non-200 / decode / non-zero-code ladder.  In
`iamport.go` the envelope's `Message` field carries the tag `"message"`. -/
def getPaymentImpUID (cli : Client) (iuid : String) (now : GoTime)
    (tokResp : TokenResponse) (opResp : OpResponse) : OpOutcome :=
  let url := "https://api.iamport.kr/payments/" ++ iuid
  let a := authorization cli now tokResp
  match a.result with
  | .error e => ⟨a.cli, Payment.zero, some e, a.posted, false, url⟩
  | .ok _auth =>
    match opResp with
    | .transportError e => ⟨a.cli, Payment.zero, some e, a.posted, true, url⟩
    | .http status body =>
      if status = 401 then
        ⟨a.cli, Payment.zero, some (.msg "iamport: unauthorized"), a.posted, true, url⟩
      else if status = 404 then
        ⟨a.cli, Payment.zero, some (.msg "iamport: invalid imp_uid"), a.posted, true, url⟩
      else if status ≠ 200 then
        ⟨a.cli, Payment.zero, some (.msg "iamport: unknown error"), a.posted, true, url⟩
      else
        match body with
        | .decodeError e partialResponse =>
          ⟨a.cli, partialResponse, some e, a.posted, true, url⟩
        | .envelope code stringFields response =>
          if code ≠ 0 then
            ⟨a.cli, response,
              some (.msg ("iamport: " ++ decodeMessageField "message" stringFields)),
              a.posted, true, url⟩
          else
            ⟨a.cli, response, none, a.posted, true, url⟩

namespace Snapshot0

/-- `Client.GetPaymentImpUID` as it stands in the older snapshot of
`iamport.go` kept in the repository, identical except that its envelope
struct declares the `Message` field with the struct tag `"string"` instead
of `"message"`, so the decoder fills it from a top-level member named
`string`. -/
def getPaymentImpUID (cli : Client) (iuid : String) (now : GoTime)
    (tokResp : TokenResponse) (opResp : OpResponse) : OpOutcome :=
  let url := "https://api.iamport.kr/payments/" ++ iuid
  let a := authorization cli now tokResp
  match a.result with
  | .error e => ⟨a.cli, Payment.zero, some e, a.posted, false, url⟩
  | .ok _auth =>
    match opResp with
    | .transportError e => ⟨a.cli, Payment.zero, some e, a.posted, true, url⟩
    | .http status body =>
      if status = 401 then
        ⟨a.cli, Payment.zero, some (.msg "iamport: unauthorized"), a.posted, true, url⟩
      else if status = 404 then
        ⟨a.cli, Payment.zero, some (.msg "iamport: invalid imp_uid"), a.posted, true, url⟩
      else if status ≠ 200 then
        ⟨a.cli, Payment.zero, some (.msg "iamport: unknown error"), a.posted, true, url⟩
      else
        match body with
        | .decodeError e partialResponse =>
          ⟨a.cli, partialResponse, some e, a.posted, true, url⟩
        | .envelope code stringFields response =>
          if code ≠ 0 then
            ⟨a.cli, response,
              some (.msg ("iamport: " ++ decodeMessageField "string" stringFields)),
              a.posted, true, url⟩
          else
            ⟨a.cli, response, none, a.posted, true, url⟩

end Snapshot0

/-! ## `GetPaymentsStatus`: the request URL -/

/-- The URL built by `GetPaymentsStatus` (iamport.go lines 277-280): the
status-scoped base, plus `?page=N` appended only under `page > 0`. -/
def getPaymentsStatusURL (status : String) (page : Int) : String :=
  "https://api.iamport.kr/payments/status/" ++ status ++
    (if page > 0 then "?page=" ++ toString page else "")

/-! ## `url.Values` and the cancel form

`url.Values` is a map from keys to value lists; the source only ever uses
`Set`, which stores a single value per key, so the model is an association
list with unique keys kept sorted by key — the order `Encode` emits.  `Set`
is sorted insert-or-replace. -/

/-- Lexicographic strict order on character lists by code point — for the
ASCII keys the source uses, the byte-wise order `sort.Strings` applies when
`url.Values.Encode` sorts the keys. -/
def charListLt : List Char → List Char → Bool
  | _, [] => false
  | [], _ :: _ => true
  | a :: as, b :: bs =>
    a.toNat < b.toNat || (a.toNat == b.toNat && charListLt as bs)

/-- Lexicographic strict order on strings by code point. -/
def strLt (a b : String) : Bool := charListLt a.data b.data

/-- `url.Values.Set` on the sorted single-valued association-list model. -/
def valuesSet (vals : List (String × String)) (k v : String) :
    List (String × String) :=
  match vals with
  | [] => [(k, v)]
  | (k', v') :: rest =>
    if strLt k k' then (k, v) :: (k', v') :: rest
    else if k = k' then (k, v) :: rest
    else (k', v') :: valuesSet rest k v

/-- An uppercase hexadecimal digit, for `n < 16`. -/
def upperHexDigit (n : Nat) : Char :=
  if n < 10 then Char.ofNat (48 + n) else Char.ofNat (55 + n)

/-- `url.QueryEscape` of one character, for ASCII input: unreserved
characters (alphanumerics and `-` `_` `.` `~`) kept, space to `+`, anything
else percent-encoded with uppercase hex digits.  (Go escapes the UTF-8 bytes
of non-ASCII characters; every string the proofs escape is ASCII.) -/
def queryEscapeChar (c : Char) : List Char :=
  if c = ' ' then ['+']
  else if c.isAlphanum || c = '-' || c = '_' || c = '.' || c = '~' then [c]
  else ['%', upperHexDigit (c.toNat / 16 % 16), upperHexDigit (c.toNat % 16)]

/-- `url.QueryEscape` for ASCII strings. -/
def queryEscape (s : String) : String :=
  ⟨(s.data.map queryEscapeChar).flatten⟩

/-- `url.Values.Encode`: `k=v` pairs joined by `&` in key order (the model
keeps the list sorted), keys and values query-escaped. -/
def valuesEncode (vals : List (String × String)) : String :=
  String.intercalate "&"
    (vals.map fun p => queryEscape p.1 ++ "=" ++ queryEscape p.2)

/-- `CancelOptions` struct (iamport.go lines 389-395); `RefundBank` is the
string-typed `Bank` code. -/
structure CancelOptions where
  amount : String
  reason : String
  refundHolder : String
  refundBank : String
  refundAccount : String
  deriving DecidableEq, Repr

/-- `CancelOptions.form` (iamport.go lines 397-421): each optional field is
`Set` only when non-empty. -/
def CancelOptions.form (ops : CancelOptions) : List (String × String) :=
  let vals : List (String × String) := []
  let vals := if ops.amount ≠ "" then valuesSet vals "amount" ops.amount else vals
  let vals := if ops.reason ≠ "" then valuesSet vals "reason" ops.reason else vals
  let vals :=
    if ops.refundHolder ≠ "" then valuesSet vals "refund_holder" ops.refundHolder else vals
  let vals :=
    if ops.refundBank ≠ "" then valuesSet vals "refund_bank" ops.refundBank else vals
  let vals :=
    if ops.refundAccount ≠ "" then valuesSet vals "refund_account" ops.refundAccount else vals
  vals

/-- The form body built by `cancelPayment` (iamport.go lines 444-451): the
options' form when the pointer is non-nil, the empty `url.Values` otherwise,
then the target id `Set` under `key`.  `CancelPaymentImpUID` calls this with
key `"imp_uid"`, `CancelPaymentMerchantUID` with key `"merchant_uid"`. -/
def cancelPaymentForm (key uid : String) (options : Option CancelOptions) :
    List (String × String) :=
  let form : List (String × String) :=
    match options with
    | some ops => ops.form
    | none => []
  valuesSet form key uid

/-! ## Helper lemmas -/

/-- On every error path, `getToken` returns the client unchanged: the
mutation of the cached token happens only after the last check passes. -/
theorem getToken_err_or_unchanged (cli : Client) (resp : TokenResponse) :
    (getToken cli resp).err = none ∨ (getToken cli resp).cli = cli := by
  unfold getToken
  repeat' split
  all_goals simp

/-- With both credentials present, `getToken` reaches `PostForm`, whatever
the transport then does. -/
theorem getToken_posted (cli : Client) (resp : TokenResponse)
    (hk : cli.apiKey ≠ "") (hs : cli.apiSecret ≠ "") :
    (getToken cli resp).posted = true := by
  unfold getToken
  rw [if_neg hk, if_neg hs]
  rcases resp with e | ⟨status, body⟩
  · rfl
  · repeat' split
    all_goals rfl

/-- Looking up the key just `Set` finds the new value. -/
theorem lookup_valuesSet_self (vals : List (String × String)) (k v : String) :
    (valuesSet vals k v).lookup k = some v := by
  induction vals with
  | nil => simp [valuesSet]
  | cons p rest ih =>
    obtain ⟨k', v'⟩ := p
    unfold valuesSet
    split
    · simp
    · split
      · simp
      · next hlt heq =>
        simp only [List.lookup, beq_eq_false_iff_ne.mpr heq]
        exact ih

/-- `Set` leaves the lookup of every other key unchanged. -/
theorem lookup_valuesSet_ne (vals : List (String × String)) (k v k' : String)
    (h : k' ≠ k) :
    (valuesSet vals k v).lookup k' = vals.lookup k' := by
  induction vals with
  | nil => simp [valuesSet, List.lookup, beq_eq_false_iff_ne.mpr h]
  | cons p rest ih =>
    obtain ⟨k'', v''⟩ := p
    unfold valuesSet
    split
    · simp [List.lookup, beq_eq_false_iff_ne.mpr h]
    · split
      · next hlt heq =>
        subst heq
        simp [List.lookup, beq_eq_false_iff_ne.mpr h]
      · simp only [List.lookup]
        cases hb : k' == k''
        · simpa [hb] using ih
        · simp [hb]

/-! ## The claims -/

/-- Claim C1, refuted on the code: a client whose cached token is non-empty,
with a non-zero expiry strictly in the future (`specTokenUsable` holds),
should have `authorization` return the cached token without calling
`GetToken`; instead the switch case `!Expired.Before(now)` fires for every
future expiry, so `GetToken` is called — and, the credentials being present,
a POST to the authentication endpoint is issued — for every possible
transport response. -/
theorem authorization_refetches_despite_valid_token :
    specTokenUsable ⟨"k", "s", ⟨"tok", ⟨9999999999, 0⟩⟩⟩ ⟨1700000000, 0⟩ = true ∧
    ∀ tokResp : TokenResponse,
      (authorization ⟨"k", "s", ⟨"tok", ⟨9999999999, 0⟩⟩⟩ ⟨1700000000, 0⟩
          tokResp).getTokenCalled = true ∧
      (authorization ⟨"k", "s", ⟨"tok", ⟨9999999999, 0⟩⟩⟩ ⟨1700000000, 0⟩
          tokResp).posted = true := by
  refine ⟨by decide, fun tokResp => ?_⟩
  have hp := getToken_posted ⟨"k", "s", ⟨"tok", ⟨9999999999, 0⟩⟩⟩ tokResp
    (by decide) (by decide)
  unfold authorization
  rw [if_pos (by decide)]
  cases h : (getToken ⟨"k", "s", ⟨"tok", ⟨9999999999, 0⟩⟩⟩ tokResp).err <;>
    simp [h, hp]

/-- Claim C2, refuted on the code: a client whose cached token is non-empty
and has a non-zero expiry that is already in the past (`specTokenUsable` is
false — the token is invalid) should trigger exactly one `GetToken` call;
instead `Expired.Before(now)` is true, so the negated switch case does not
fire and `authorization` returns the stale token with zero acquisition
attempts, for every possible transport response.  (The other two invalid
states — empty token string, zero expiry — do fire the switch.) -/
theorem authorization_skips_refresh_for_expired_token :
    specTokenUsable ⟨"k", "s", ⟨"tok", ⟨1000, 0⟩⟩⟩ ⟨2000, 0⟩ = false ∧
    ∀ tokResp : TokenResponse,
      authorization ⟨"k", "s", ⟨"tok", ⟨1000, 0⟩⟩⟩ ⟨2000, 0⟩ tokResp =
        ⟨⟨"k", "s", ⟨"tok", ⟨1000, 0⟩⟩⟩, .ok "tok", false, false⟩ := by
  refine ⟨by decide, fun tokResp => ?_⟩
  unfold authorization
  rw [if_neg (by decide)]

/-- Claim C3: a client constructed with an empty API key or an empty API
secret fails with the corresponding configuration error on `GetToken` and on
the authenticated operation, with no POST to the authentication endpoint and
no request to the operation endpoint, whatever the transport would have
answered. -/
theorem missing_credentials_fail_before_network (k s : String)
    (h : k = "" ∨ s = "") (iuid : String) (now : GoTime)
    (tokResp : TokenResponse) (opResp : OpResponse) :
    (getToken (newClient k s) tokResp).err =
      some (.msg (if k = "" then "iamport: APIKey is missing"
        else "iamport: APISecret is missing")) ∧
    (getToken (newClient k s) tokResp).posted = false ∧
    (getPaymentImpUID (newClient k s) iuid now tokResp opResp).err =
      some (.msg (if k = "" then "iamport: APIKey is missing"
        else "iamport: APISecret is missing")) ∧
    (getPaymentImpUID (newClient k s) iuid now tokResp opResp).authPosted = false ∧
    (getPaymentImpUID (newClient k s) iuid now tokResp opResp).opRequested = false := by
  by_cases hk : k = ""
  · subst hk
    simp [getToken, newClient, getPaymentImpUID, authorization, tokenNeedsRefresh]
  · replace h := h.resolve_left hk
    subst h
    simp [getToken, newClient, getPaymentImpUID, authorization, tokenNeedsRefresh, hk]

/-- Witness for C3 at a concrete empty-key client. -/
theorem missing_credentials_fail_before_network_witness :
    (getToken (newClient "" "x") (.transportError (.msg "t"))).err =
      some (.msg "iamport: APIKey is missing") ∧
    (getToken (newClient "" "x") (.transportError (.msg "t"))).posted = false ∧
    (getPaymentImpUID (newClient "" "x") "uid" ⟨0, 0⟩ (.transportError (.msg "t"))
        (.transportError (.msg "t"))).err = some (.msg "iamport: APIKey is missing") ∧
    (getPaymentImpUID (newClient "" "x") "uid" ⟨0, 0⟩ (.transportError (.msg "t"))
        (.transportError (.msg "t"))).authPosted = false ∧
    (getPaymentImpUID (newClient "" "x") "uid" ⟨0, 0⟩ (.transportError (.msg "t"))
        (.transportError (.msg "t"))).opRequested = false := by
  simpa using missing_credentials_fail_before_network "" "x" (Or.inl rfl) "uid"
    ⟨0, 0⟩ (.transportError (.msg "t")) (.transportError (.msg "t"))

/-- Claim C4: whenever `GetToken` returns an error — missing credentials,
transport error, 401, other non-200, decode failure, or a non-zero envelope
code — the cached access token (string and expiry both) is exactly what it
was before the call. -/
theorem getToken_error_leaves_cached_token_unchanged (cli : Client)
    (resp : TokenResponse) (h : (getToken cli resp).err ≠ none) :
    (getToken cli resp).cli.accessToken = cli.accessToken := by
  rcases getToken_err_or_unchanged cli resp with h' | h'
  · exact absurd h' h
  · rw [h']

/-- Witness for C4 at a concrete failing acquisition. -/
theorem getToken_error_leaves_cached_token_unchanged_witness :
    (getToken (newClient "" "s") (.transportError (.msg "t"))).cli.accessToken =
      (newClient "" "s").accessToken :=
  getToken_error_leaves_cached_token_unchanged _ _ (by decide)

/-- Claim C5: a 200 answer whose envelope has code 0, token `tok` and epoch
expiry `expAt` makes `GetToken` succeed, store `tok` as the cached token
string and `time.Unix(expAt, 0)` as the cached expiry. -/
theorem getToken_success_stores_token_and_expiry (cli : Client)
    (hk : cli.apiKey ≠ "") (hs : cli.apiSecret ≠ "")
    (message tok : String) (expAt nowEpoch : Int) :
    (getToken cli (.http 200 (.envelope 0 message tok expAt nowEpoch))).err = none ∧
    (getToken cli (.http 200 (.envelope 0 message tok expAt
        nowEpoch))).cli.accessToken.token = tok ∧
    (getToken cli (.http 200 (.envelope 0 message tok expAt
        nowEpoch))).cli.accessToken.expired = timeUnix expAt := by
  simp [getToken, hk, hs]

/-- Witness for C5 on the spec's example token. -/
theorem getToken_success_stores_token_and_expiry_witness :
    (getToken (newClient "key" "secret")
        (.http 200 (.envelope 0 "" "tok123" 1800000000 1700000000))).err = none ∧
    (getToken (newClient "key" "secret")
        (.http 200 (.envelope 0 "" "tok123" 1800000000
          1700000000))).cli.accessToken.token = "tok123" ∧
    (getToken (newClient "key" "secret")
        (.http 200 (.envelope 0 "" "tok123" 1800000000
          1700000000))).cli.accessToken.expired = timeUnix 1800000000 :=
  getToken_success_stores_token_and_expiry (newClient "key" "secret")
    (by decide) (by decide) "" "tok123" 1800000000 1700000000

/-- Claim C6, refuted on the snapshot kept in the repository: on a 200
response whose envelope is code 1, message `boom`, the current
`GetPaymentImpUID` (envelope `Message` tagged `"message"`) surfaces
`iamport: boom`, but the older snapshot (same field tagged `"string"`) finds
no member named `string`, leaves the field at its zero value and surfaces
`iamport: ` — an error that does not contain the server's message. -/
theorem snapshot_message_tag_drops_server_message :
    (Snapshot0.getPaymentImpUID (newClient "k" "s") "uid" ⟨0, 0⟩
        (.http 200 (.envelope 0 "" "tok" 99 0))
        (.http 200 (.envelope 1 [("message", "boom")] Payment.zero))).err =
      some (.msg "iamport: ") ∧
    (getPaymentImpUID (newClient "k" "s") "uid" ⟨0, 0⟩
        (.http 200 (.envelope 0 "" "tok" 99 0))
        (.http 200 (.envelope 1 [("message", "boom")] Payment.zero))).err =
      some (.msg "iamport: boom") ∧
    (Snapshot0.getPaymentImpUID (newClient "k" "s") "uid" ⟨0, 0⟩
        (.http 200 (.envelope 0 "" "tok" 99 0))
        (.http 200 (.envelope 1 [("message", "boom")] Payment.zero))).payment =
      Payment.zero :=
  ⟨rfl, rfl, rfl⟩

/-- Claim C7: whenever the token resolves, a 404 from the gateway-id lookup
endpoint makes `GetPaymentImpUID` return the `iamport: invalid imp_uid`
error together with a zero-valued payment record, whatever the response
body. -/
theorem getPaymentImpUID_notFound_invalid_imp_uid (cli : Client)
    (iuid : String) (now : GoTime) (tokResp : TokenResponse) (body : OpBody)
    (tok : String) (h : (authorization cli now tokResp).result = .ok tok) :
    (getPaymentImpUID cli iuid now tokResp (.http 404 body)).payment =
      Payment.zero ∧
    (getPaymentImpUID cli iuid now tokResp (.http 404 body)).err =
      some (.msg "iamport: invalid imp_uid") := by
  simp [getPaymentImpUID, h]

/-- Witness for C7: fresh client, successful acquisition, then a 404. -/
theorem getPaymentImpUID_notFound_invalid_imp_uid_witness :
    (getPaymentImpUID (newClient "k" "s") "uid" ⟨0, 0⟩
        (.http 200 (.envelope 0 "" "newtok" 99 0))
        (.http 404 (.envelope 0 [] Payment.zero))).payment = Payment.zero ∧
    (getPaymentImpUID (newClient "k" "s") "uid" ⟨0, 0⟩
        (.http 200 (.envelope 0 "" "newtok" 99 0))
        (.http 404 (.envelope 0 [] Payment.zero))).err =
      some (.msg "iamport: invalid imp_uid") :=
  getPaymentImpUID_notFound_invalid_imp_uid (newClient "k" "s") "uid" ⟨0, 0⟩
    (.http 200 (.envelope 0 "" "newtok" 99 0)) (.envelope 0 [] Payment.zero)
    "newtok" rfl

/-- Claim C8: for every cancel options value and target id, the cancel form
carries the id under `imp_uid` resp. `merchant_uid`, and carries each
optional field exactly when it is non-empty; and the options
`amount=100, reason=customer request` with blank refund fields produce the
three-pair body whose encoding is
`amount=100&imp_uid=imp_123&reason=customer+request` (keys in `Encode`
order), with no `refund_*` keys. -/
theorem cancelPayment_form_fields_iff_nonempty (ops : CancelOptions)
    (uid : String) :
    ((cancelPaymentForm "imp_uid" uid (some ops)).lookup "imp_uid" = some uid) ∧
    ((cancelPaymentForm "merchant_uid" uid (some ops)).lookup "merchant_uid" =
      some uid) ∧
    ((cancelPaymentForm "imp_uid" uid (some ops)).lookup "amount" =
      if ops.amount = "" then none else some ops.amount) ∧
    ((cancelPaymentForm "imp_uid" uid (some ops)).lookup "reason" =
      if ops.reason = "" then none else some ops.reason) ∧
    ((cancelPaymentForm "imp_uid" uid (some ops)).lookup "refund_holder" =
      if ops.refundHolder = "" then none else some ops.refundHolder) ∧
    ((cancelPaymentForm "imp_uid" uid (some ops)).lookup "refund_bank" =
      if ops.refundBank = "" then none else some ops.refundBank) ∧
    ((cancelPaymentForm "imp_uid" uid (some ops)).lookup "refund_account" =
      if ops.refundAccount = "" then none else some ops.refundAccount) ∧
    ((cancelPaymentForm "merchant_uid" uid (some ops)).lookup "amount" =
      if ops.amount = "" then none else some ops.amount) ∧
    ((cancelPaymentForm "merchant_uid" uid (some ops)).lookup "reason" =
      if ops.reason = "" then none else some ops.reason) ∧
    ((cancelPaymentForm "merchant_uid" uid (some ops)).lookup "refund_holder" =
      if ops.refundHolder = "" then none else some ops.refundHolder) ∧
    ((cancelPaymentForm "merchant_uid" uid (some ops)).lookup "refund_bank" =
      if ops.refundBank = "" then none else some ops.refundBank) ∧
    ((cancelPaymentForm "merchant_uid" uid (some ops)).lookup "refund_account" =
      if ops.refundAccount = "" then none else some ops.refundAccount) ∧
    (cancelPaymentForm "imp_uid" "imp_123"
        (some ⟨"100", "customer request", "", "", ""⟩) =
      [("amount", "100"), ("imp_uid", "imp_123"),
        ("reason", "customer request")]) ∧
    (valuesEncode (cancelPaymentForm "imp_uid" "imp_123"
        (some ⟨"100", "customer request", "", "", ""⟩)) =
      "amount=100&imp_uid=imp_123&reason=customer+request") := by
  obtain ⟨a, r, rh, rb, ra⟩ := ops
  refine ⟨?_, ?_, ?_, ?_, ?_, ?_, ?_, ?_, ?_, ?_, ?_, ?_, by decide, by decide⟩ <;>
  simp [cancelPaymentForm, CancelOptions.form,
    apply_ite (List.lookup "imp_uid"), apply_ite (List.lookup "merchant_uid"),
    apply_ite (List.lookup "amount"), apply_ite (List.lookup "reason"),
    apply_ite (List.lookup "refund_holder"), apply_ite (List.lookup "refund_bank"),
    apply_ite (List.lookup "refund_account"),
    lookup_valuesSet_self, lookup_valuesSet_ne]

/-- Claim C9: the `GetPaymentsStatus` request URL carries `?page=N` exactly
when the page argument is strictly positive, and is the bare status-scoped
URL when the page is zero or negative. -/
theorem getPaymentsStatus_page_param_iff_positive (status : String)
    (page : Int) :
    (0 < page →
      getPaymentsStatusURL status page =
        "https://api.iamport.kr/payments/status/" ++ status ++ "?page=" ++
          toString page) ∧
    (page ≤ 0 →
      getPaymentsStatusURL status page =
        "https://api.iamport.kr/payments/status/" ++ status) := by
  constructor
  · intro hp
    simp [getPaymentsStatusURL, hp, String.append_assoc]
  · intro hp
    simp [getPaymentsStatusURL, not_lt.mpr hp]

/-- Witness for C9 at pages 2 and 0. -/
theorem getPaymentsStatus_page_param_iff_positive_witness :
    getPaymentsStatusURL "paid" 2 =
      "https://api.iamport.kr/payments/status/paid?page=2" ∧
    getPaymentsStatusURL "paid" 0 =
      "https://api.iamport.kr/payments/status/paid" := by
  constructor
  · simpa using (getPaymentsStatus_page_param_iff_positive "paid" 2).1 (by decide)
  · simpa using (getPaymentsStatus_page_param_iff_positive "paid" 0).2 (by decide)

/-- Claim C10: with a nil options pointer the cancel form is built from the
empty `url.Values` — the options are never consulted — and holds exactly the
target id under `imp_uid` resp. `merchant_uid`. -/
theorem cancelPayment_nil_options_single_key (uid : String) :
    cancelPaymentForm "imp_uid" uid none = [("imp_uid", uid)] ∧
    cancelPaymentForm "merchant_uid" uid none = [("merchant_uid", uid)] ∧
    (cancelPaymentForm "imp_uid" uid none).length = 1 ∧
    (cancelPaymentForm "merchant_uid" uid none).length = 1 :=
  ⟨rfl, rfl, rfl, rfl⟩

end Iamport
